import Mathlib

/-!
Shallow embedding of the order-watcher loop `auto_check_otp` of `src/bot.py`
(lines 184-251), together with the response classification it performs on the
results of `check_order`.

Modelling choices, read off the Python source:

* a vendor response is a JSON dictionary; the loop inspects `result.get("status")`
  (absent key gives `None`, modelled as `Option Int`), `result.get("data", {})`
  and, inside the data, `data.get("code")` and `data.get("phone", "N/A")`;
* Python truthiness of the optional code string: `None` and the empty string
  are falsy, everything else truthy;
* one loop iteration may instead raise an unexpected exception (for example
  from `bot.send_message`); this is modelled by the `fault` query outcome,
  which aborts the loop the way a raised exception does; the `try/except/finally`
  of `auto_check_otp` then absorbs it and releases the session key;
* `active_checks` is the process-global registry of session keys, modelled as a
  list of strings; the key is the f-string `f"{chat_id}_{order_id}"`;
* messages sent with `bot.send_message` are recorded as structured notices
  paired with the total time slept so far (`time.sleep` happens before each
  query, so a notice timestamp is the sum of the intervals consumed so far).
-/

/-- Optional payload of a successful vendor response: `result["data"]` with its
`code` and `phone` entries, each possibly absent. -/
structure RespData where
  code : Option String
  phone : Option String
deriving DecidableEq

/-- A vendor response dictionary as the loop reads it: `status`, `message` and
`data` entries, each possibly absent. -/
structure ApiResult where
  status : Option Int
  message : Option String
  data : Option RespData
deriving DecidableEq

/-- Outcome of one loop iteration attempt: either `check_order` returned a
dictionary, or the iteration raised an unexpected exception. -/
inductive QueryOutcome where
  | ok (result : ApiResult)
  | fault
deriving DecidableEq

/-- The messages `auto_check_otp` can send, in structured form: the slow
connection courtesy notice, the check-manually abort notice, the OTP success
message (carrying the code and the phone it interpolates), and the timeout
notice of the for-else branch. -/
inductive Notice where
  | slow
  | checkManually
  | otpReady (code : String) (phone : String)
  | timeout
deriving DecidableEq

/-- Python truthiness of `data.get("code")`: `None` and `""` are falsy. -/
def pyTruthy : Option String → Bool
  | none => false
  | some s => !(s == "")

/-- Local state of the loop body of `auto_check_otp`: the `error_count` and
`notified` locals, plus the instrumentation needed to state the claims: total
seconds slept, number of `check_order` calls issued, and the notices sent so
far (each with its timestamp). -/
structure LoopState where
  error_count : Nat
  notified : Bool
  elapsed : Nat
  queries : Nat
  notices : List (Nat × Notice)
deriving DecidableEq

/-- How the `for` loop of `auto_check_otp` ended: a `break`, normal completion
(which triggers the `else` branch), or an exception escaping the loop body. -/
inductive LoopExit where
  | broke
  | completed
  | raised
deriving DecidableEq

/-- One iteration of the loop body after the sleep, given the dictionary
returned by `check_order`. Returns the new state and whether the iteration
executed `break`. Mirrors lines 205-238 of `src/bot.py`:
status 0 increments `error_count`, sends the slow notice exactly when
`error_count == 2 and not notified`, and breaks with the check-manually notice
when `error_count >= 4`; otherwise `error_count` is reset to 0 and a status-1
response with a truthy `code` sends the OTP message and breaks. -/
def handleResult (st : LoopState) (result : ApiResult) : LoopState × Bool :=
  if result.status = some 0 then
    let st1 :=
      if st.error_count + 1 = 2 ∧ st.notified = false then
        { st with
          queries := st.queries + 1, error_count := st.error_count + 1,
          notices := st.notices ++ [(st.elapsed, Notice.slow)], notified := true }
      else
        { st with queries := st.queries + 1, error_count := st.error_count + 1 }
    if 4 ≤ st.error_count + 1 then
      ({ st1 with notices := st1.notices ++ [(st1.elapsed, Notice.checkManually)] }, true)
    else
      (st1, false)
  else
    if result.status = some 1 then
      let data := result.data.getD { code := none, phone := none }
      match data.code with
      | some otp =>
        if otp = "" then
          ({ st with queries := st.queries + 1, error_count := 0 }, false)
        else
          ({ st with
              queries := st.queries + 1, error_count := 0,
              notices := st.notices
                ++ [(st.elapsed, Notice.otpReady otp (data.phone.getD "N/A"))] },
            true)
      | none => ({ st with queries := st.queries + 1, error_count := 0 }, false)
    else
      ({ st with queries := st.queries + 1, error_count := 0 }, false)

/-- The `for idx, wait in enumerate(intervals)` loop of `auto_check_otp`: sleep
for `wait` seconds, issue the next query (the `i`-th query receives
`responses i`), then run the loop body; a `fault` outcome is an exception
escaping the loop body. -/
def runLoop (responses : Nat → QueryOutcome) : List Nat → LoopState → LoopState × LoopExit
  | [], st => (st, LoopExit.completed)
  | wait :: rest, st =>
    match responses st.queries with
    | QueryOutcome.fault =>
      ({ st with elapsed := st.elapsed + wait, queries := st.queries + 1 }, LoopExit.raised)
    | QueryOutcome.ok result =>
      match handleResult { st with elapsed := st.elapsed + wait } result with
      | (st2, true) => (st2, LoopExit.broke)
      | (st2, false) => runLoop responses rest st2

/-- The fixed backoff schedule of `auto_check_otp` (line 195 of `src/bot.py`). -/
def intervals : List Nat := [5, 5, 7, 7, 10, 10, 15, 15]

/-- State the loop starts from: `error_count = 0`, `notified = False`, nothing
slept, queried or sent yet. -/
def initState : LoopState :=
  { error_count := 0, notified := false, elapsed := 0, queries := 0, notices := [] }

/-- The `for ... else` of `auto_check_otp`: on normal completion of the loop,
the timeout notice is sent; after a `break` or a raised exception it is not. -/
def finalNotices (st : LoopState) (ex : LoopExit) : List (Nat × Notice) :=
  match ex with
  | LoopExit.completed => st.notices ++ [(st.elapsed, Notice.timeout)]
  | _ => st.notices

/-- Session key, the f-string of line 186 of `src/bot.py`. -/
def check_key (chat_id order_id : String) : String :=
  chat_id ++ "_" ++ order_id

/-- Observable outcome of one call of `auto_check_otp`: the registry of active
session keys after the call, the notices sent, the number of `check_order`
calls issued, and how the loop ended (`none` when the admission check returned
at once). -/
structure WatchResult where
  registry : List String
  notices : List (Nat × Notice)
  queries : Nat
  exit : Option LoopExit
deriving DecidableEq

/-- The watcher `auto_check_otp` of `src/bot.py` lines 184-251. If the key is
already in `active_checks` it returns immediately; otherwise it inserts the
key, runs the loop over `intervals`, sends the timeout notice when the loop
completes without `break`, absorbs a raised exception, and in the `finally`
block pops the key from the registry. -/
def auto_check_otp (chat_id order_id : String) (active_checks : List String)
    (responses : Nat → QueryOutcome) : WatchResult :=
  let key := check_key chat_id order_id
  if key ∈ active_checks then
    { registry := active_checks, notices := [], queries := 0, exit := none }
  else
    let r := runLoop responses intervals initState
    { registry := (active_checks ++ [key]).filter (fun k => !(k == key)),
      notices := finalNotices r.1 r.2,
      queries := r.1.queries,
      exit := some r.2 }

/-- Number of notices of kind `n` among the sent notices. -/
def countNotice (n : Notice) (ns : List (Nat × Notice)) : Nat :=
  (ns.filter (fun p => p.2 = n)).length

/-- Whether a notice is the OTP success message. -/
def isSuccessNotice : Notice → Bool
  | Notice.otpReady _ _ => true
  | _ => false

/-- Number of OTP success messages among the sent notices. -/
def countSuccess (ns : List (Nat × Notice)) : Nat :=
  (ns.filter (fun p => isSuccessNotice p.2)).length

/-- A query outcome the loop treats as pending: a status-1 dictionary whose
data carries no truthy `code`. -/
def IsPendingResp (q : QueryOutcome) : Prop :=
  match q with
  | QueryOutcome.ok r =>
      r.status = some 1 ∧ pyTruthy ((r.data.getD { code := none, phone := none }).code) = false
  | QueryOutcome.fault => False

/-- A transient-error response: the decorated `check_order` signalled a failure
with a status-0 dictionary. -/
def respErr : ApiResult :=
  { status := some 0, message := some "timeout", data := none }

/-- A pending response: status 1 with no code yet. -/
def respPending : ApiResult :=
  { status := some 1, message := none, data := some { code := none, phone := none } }

/-- A code-ready response carrying the OTP code and the phone. -/
def respReady (c p : String) : ApiResult :=
  { status := some 1, message := none, data := some { code := some c, phone := some p } }

/-- A response for a dead (cancelled or expired or not-found) order: the vendor
reports failure, which the decorator surfaces as a status-0 dictionary. -/
def respCancelled : ApiResult :=
  { status := some 0, message := some "order cancelled", data := none }

/-- Scenario A responses: pending for the first 4 queries, then code ready. -/
def scenarioA : Nat → QueryOutcome
  | 0 => QueryOutcome.ok respPending
  | 1 => QueryOutcome.ok respPending
  | 2 => QueryOutcome.ok respPending
  | 3 => QueryOutcome.ok respPending
  | _ => QueryOutcome.ok (respReady "1234" "+1555")

/-- Scenario B responses: transient error, then pending, then code ready. -/
def scenarioB : Nat → QueryOutcome
  | 0 => QueryOutcome.ok respErr
  | 1 => QueryOutcome.ok respPending
  | _ => QueryOutcome.ok (respReady "1234" "+1555")

/-- Scenario C responses: every query is a transient error. -/
def allErrors : Nat → QueryOutcome :=
  fun _ => QueryOutcome.ok respErr

/-- Scenario D responses: every query is pending. -/
def allPending : Nat → QueryOutcome :=
  fun _ => QueryOutcome.ok respPending

/-- Responses for a dead order under a vendor with no dedicated terminal
signal: every query reports the status-0 failure dictionary. -/
def allCancelled : Nat → QueryOutcome :=
  fun _ => QueryOutcome.ok respCancelled

/-- Responses where the first iteration raises an unexpected exception. -/
def allFault : Nat → QueryOutcome :=
  fun _ => QueryOutcome.fault

/-- The loop state after one transient error in a fresh burst: one error
counted, the courtesy notice not yet sent. -/
def stOneErr : LoopState :=
  { error_count := 1, notified := false, elapsed := 5, queries := 1, notices := [] }

/-- The loop state after three consecutive transient errors (the courtesy
notice already sent at the second, and recorded notices elided). -/
def stThreeErr : LoopState :=
  { error_count := 3, notified := true, elapsed := 24, queries := 3, notices := [] }

/-! Helper lemmas about notice counts and single loop steps. -/

lemma countNotice_append (n : Notice) (xs ys : List (Nat × Notice)) :
    countNotice n (xs ++ ys) = countNotice n xs + countNotice n ys := by
  simp [countNotice, List.filter_append]

lemma countNotice_single (n m : Notice) (t : Nat) :
    countNotice n [(t, m)] = if m = n then 1 else 0 := by
  by_cases h : m = n <;> simp [countNotice, h]

lemma countSuccess_append (xs ys : List (Nat × Notice)) :
    countSuccess (xs ++ ys) = countSuccess xs + countSuccess ys := by
  simp [countSuccess, List.filter_append]

lemma handleResult_pending (st : LoopState) (r : ApiResult)
    (h1 : r.status = some 1)
    (h2 : pyTruthy ((r.data.getD { code := none, phone := none }).code) = false) :
    handleResult st r = ({ st with queries := st.queries + 1, error_count := 0 }, false) := by
  unfold handleResult
  rcases hc : (r.data.getD { code := none, phone := none }).code with _ | s
  · simp [h1, hc]
  · rw [hc] at h2
    simp only [pyTruthy, Bool.not_eq_false', beq_iff_eq] at h2
    simp [h1, hc, h2]

lemma handleResult_notices_cases (st : LoopState) (r : ApiResult) :
    ((handleResult st r).1.notices = st.notices
        ∧ (handleResult st r).1.notified = st.notified
        ∧ (handleResult st r).2 = false)
    ∨ (st.notified = false ∧ (handleResult st r).1.notified = true
        ∧ (handleResult st r).1.notices = st.notices ++ [(st.elapsed, Notice.slow)]
        ∧ (handleResult st r).2 = false)
    ∨ ((handleResult st r).1.notified = st.notified ∧ (handleResult st r).2 = true
        ∧ ((handleResult st r).1.notices = st.notices ++ [(st.elapsed, Notice.checkManually)]
            ∨ ∃ c p, (handleResult st r).1.notices
                = st.notices ++ [(st.elapsed, Notice.otpReady c p)])) := by
  rcases hc : (r.data.getD { code := none, phone := none }).code with _ | s
  · simp only [handleResult, hc]
    split_ifs with h0 h4 h2 h2 h1
    · exact absurd h4 (by have := h2.1; omega)
    · exact Or.inr (Or.inr ⟨rfl, rfl, Or.inl rfl⟩)
    · exact Or.inr (Or.inl ⟨h2.2, rfl, rfl, rfl⟩)
    · exact Or.inl ⟨rfl, rfl, rfl⟩
    · exact Or.inl ⟨rfl, rfl, rfl⟩
    · exact Or.inl ⟨rfl, rfl, rfl⟩
  · simp only [handleResult, hc]
    split_ifs with h0 h4 h2 h2 h1 hs
    · exact absurd h4 (by have := h2.1; omega)
    · exact Or.inr (Or.inr ⟨rfl, rfl, Or.inl rfl⟩)
    · exact Or.inr (Or.inl ⟨h2.2, rfl, rfl, rfl⟩)
    · exact Or.inl ⟨rfl, rfl, rfl⟩
    · exact Or.inl ⟨rfl, rfl, rfl⟩
    · exact Or.inr (Or.inr ⟨rfl, rfl, Or.inr ⟨s, _, rfl⟩⟩)
    · exact Or.inl ⟨rfl, rfl, rfl⟩

lemma runLoop_pending (responses : Nat → QueryOutcome) (l : List Nat) (st : LoopState)
    (h : ∀ i, IsPendingResp (responses i)) :
    runLoop responses l st
      = ({ st with
            elapsed := st.elapsed + l.sum, queries := st.queries + l.length,
            error_count := if l.isEmpty then st.error_count else 0 },
          LoopExit.completed) := by
  induction l generalizing st with
  | nil => simp [runLoop]
  | cons w rest ih =>
    have hp := h st.queries
    rcases hq : responses st.queries with result | _
    · rw [hq] at hp
      simp only [IsPendingResp] at hp
      simp only [runLoop, hq, handleResult_pending _ _ hp.1 hp.2]
      rw [ih]
      rw [Prod.mk.injEq, LoopState.mk.injEq]
      refine ⟨⟨by simp, rfl, by simp only [List.sum_cons]; omega,
        by simp only [List.length_cons]; omega, rfl⟩, rfl⟩
    · rw [hq] at hp
      simp [IsPendingResp] at hp

lemma runLoop_error_notice_bound (responses : Nat → QueryOutcome) (l : List Nat)
    (st : LoopState)
    (hs : countNotice Notice.slow st.notices ≤ 1)
    (h0 : st.notified = false → countNotice Notice.slow st.notices = 0)
    (hm : countNotice Notice.checkManually st.notices = 0) :
    countNotice Notice.slow (runLoop responses l st).1.notices ≤ 1
      ∧ countNotice Notice.checkManually (runLoop responses l st).1.notices ≤ 1 := by
  induction l generalizing st with
  | nil => exact ⟨by simpa [runLoop] using hs, by simp [runLoop, hm]⟩
  | cons w rest ih =>
    rcases hq : responses st.queries with result | _
    · have hcases :=
        handleResult_notices_cases ({ st with elapsed := st.elapsed + w } : LoopState) result
      rcases hr : handleResult ({ st with elapsed := st.elapsed + w } : LoopState) result
        with ⟨st2, brk⟩
      rw [hr] at hcases
      simp only at hcases
      simp only [runLoop, hq, hr]
      rcases brk with _ | _
      · -- the loop continues with st2
        rcases hcases with ⟨hn, hf, _⟩ | ⟨hf0, hf1, hn, _⟩ | ⟨_, hb, _⟩
        · exact ih st2 (by rw [hn]; exact hs)
            (fun hnf => by rw [hn]; exact h0 (hf ▸ hnf))
            (by rw [hn]; exact hm)
        · refine ih st2 ?_ ?_ ?_
          · rw [hn, countNotice_append, countNotice_single]
            have := h0 hf0
            simp at this ⊢
            omega
          · intro hnf; rw [hf1] at hnf; exact absurd hnf (by simp)
          · rw [hn, countNotice_append, countNotice_single, hm]
            simp
        · exact absurd hb (by simp)
      · -- the loop breaks with st2
        rcases hcases with ⟨_, _, hb⟩ | ⟨_, _, _, hb⟩ | ⟨_, _, hn⟩
        · exact absurd hb (by simp)
        · exact absurd hb (by simp)
        · rcases hn with hn | ⟨c, p, hn⟩
          · constructor
            · rw [hn, countNotice_append, countNotice_single]
              simp only at *
              simp
              omega
            · rw [hn, countNotice_append, countNotice_single, hm]
              simp
          · constructor
            · rw [hn, countNotice_append, countNotice_single]
              simp
              omega
            · rw [hn, countNotice_append, countNotice_single, hm]
              simp
    · simp only [runLoop, hq]
      exact ⟨hs, by simp [hm]⟩

lemma countNotice_finalNotices (n : Notice) (hne : ¬ n = Notice.timeout)
    (st : LoopState) (ex : LoopExit) :
    countNotice n (finalNotices st ex) = countNotice n st.notices := by
  cases ex <;>
    simp [finalNotices, countNotice_append, countNotice_single, Ne.symm hne]

lemma pop_key (registry : List String) (key : String) (h : key ∉ registry) :
    (registry ++ [key]).filter (fun k => !(k == key)) = registry := by
  have h1 : registry.filter (fun k => !(k == key)) = registry := by
    apply List.filter_eq_self.mpr
    intro a ha
    simp only [Bool.not_eq_true', beq_eq_false_iff_ne, ne_eq]
    intro e
    exact h (e ▸ ha)
  simp [List.filter_append, h1]

/-!
Claim theorems. Each theorem settles one claim of the specification against
the embedding above.
-/

/-- C1, counterexample: the claim predicts one slow-connection notice already
on the first transient error of a burst (while `notified` is false), and one
slow notice in the run transient-error, pending, code-ready. The code sends
the slow notice only at `error_count == 2`, so after a first transient error
from the fresh state no slow notice exists and `notified` is still false, and
the scenario run sends zero slow notices (and one success notice). -/
theorem claim_C1_counterexample :
    countNotice Notice.slow (handleResult initState respErr).1.notices = 0
    ∧ (handleResult initState respErr).1.notified = false
    ∧ countNotice Notice.slow (auto_check_otp "chat" "order" [] scenarioB).notices = 0
    ∧ countSuccess (auto_check_otp "chat" "order" [] scenarioB).notices = 1 := by
  decide

/-- C1, amended: the courtesy slow-connection notice is sent on the second
consecutive transient error of a burst (when `notified` is still false):
exactly one slow notice is appended and `notified` is set; and in the run
transient-error, pending, code-ready the watcher sends zero slow notices and
exactly one success notice, with `error_count = 0` at termination. -/
theorem claim_C1_amended (st : LoopState) (r : ApiResult)
    (hr : r.status = some 0) (he : st.error_count = 1) (hn : st.notified = false) :
    ((handleResult st r).1.notices = st.notices ++ [(st.elapsed, Notice.slow)]
      ∧ (handleResult st r).1.notified = true
      ∧ (handleResult st r).2 = false)
    ∧ ((auto_check_otp "chat" "order" [] scenarioB).notices
        = [(17, Notice.otpReady "1234" "+1555")]
      ∧ (runLoop scenarioB intervals initState).1.error_count = 0) := by
  refine ⟨?_, by decide⟩
  simp [handleResult, hr, he, hn]

/-- C1, witness: the amended claim instantiated at the state reached after one
transient error (error counter 1, not yet notified) and a transient-error
response. -/
theorem claim_C1_witness :
    ((handleResult stOneErr respErr).1.notices = stOneErr.notices ++ [(stOneErr.elapsed, Notice.slow)]
      ∧ (handleResult stOneErr respErr).1.notified = true
      ∧ (handleResult stOneErr respErr).2 = false)
    ∧ ((auto_check_otp "chat" "order" [] scenarioB).notices
        = [(17, Notice.otpReady "1234" "+1555")]
      ∧ (runLoop scenarioB intervals initState).1.error_count = 0) :=
  claim_C1_amended stOneErr respErr rfl rfl rfl

/-- C2: when `error_count` reaches the ceiling of 4 on a transient-error
response, the iteration appends exactly one check-manually notice and breaks;
and on four consecutive transient errors the watcher issues exactly 4 queries
(never a 5th), sends exactly one check-manually notice, and exits by `break`. -/
theorem claim_C2_error_ceiling (st : LoopState) (r : ApiResult)
    (hr : r.status = some 0) (he : st.error_count = 3) :
    ((handleResult st r).2 = true
      ∧ (handleResult st r).1.notices = st.notices ++ [(st.elapsed, Notice.checkManually)])
    ∧ ((auto_check_otp "chat" "order" [] allErrors).queries = 4
      ∧ countNotice Notice.checkManually (auto_check_otp "chat" "order" [] allErrors).notices = 1
      ∧ (auto_check_otp "chat" "order" [] allErrors).exit = some LoopExit.broke) := by
  refine ⟨?_, by decide⟩
  simp [handleResult, hr, he]

/-- C2, witness: the ceiling theorem instantiated at the state reached after
three consecutive transient errors and a fourth transient-error response. -/
theorem claim_C2_witness :
    ((handleResult stThreeErr respErr).2 = true
      ∧ (handleResult stThreeErr respErr).1.notices
          = stThreeErr.notices ++ [(stThreeErr.elapsed, Notice.checkManually)])
    ∧ ((auto_check_otp "chat" "order" [] allErrors).queries = 4
      ∧ countNotice Notice.checkManually (auto_check_otp "chat" "order" [] allErrors).notices = 1
      ∧ (auto_check_otp "chat" "order" [] allErrors).exit = some LoopExit.broke) :=
  claim_C2_error_ceiling stThreeErr respErr rfl rfl

/-- C3: whenever the watch is admitted (the key was not in the registry), the
registry after the call equals the registry before it — the session key is
released on every exit path, for every response sequence, faults included —
and a run whose loop body raises is absorbed into a normal return with exit
state `raised` rather than a propagated exception. -/
theorem claim_C3_cleanup (chat_id order_id : String) (active_checks : List String)
    (responses : Nat → QueryOutcome)
    (h : check_key chat_id order_id ∉ active_checks) :
    (auto_check_otp chat_id order_id active_checks responses).registry = active_checks
    ∧ check_key chat_id order_id ∉
        (auto_check_otp chat_id order_id active_checks responses).registry
    ∧ (auto_check_otp chat_id order_id active_checks allFault).exit
        = some LoopExit.raised := by
  have hreg : ∀ rs : Nat → QueryOutcome,
      (auto_check_otp chat_id order_id active_checks rs).registry = active_checks := by
    intro rs
    unfold auto_check_otp
    rw [if_neg h]
    exact pop_key active_checks (check_key chat_id order_id) h
  refine ⟨hreg responses, ?_, ?_⟩
  · rw [hreg responses]
    exact h
  · unfold auto_check_otp
    rw [if_neg h]
    rfl

/-- C3, witness: the cleanup theorem instantiated at an empty registry and the
scenario-A response sequence. -/
theorem claim_C3_witness :
    (auto_check_otp "chat" "order" [] scenarioA).registry = []
    ∧ check_key "chat" "order" ∉ (auto_check_otp "chat" "order" [] scenarioA).registry
    ∧ (auto_check_otp "chat" "order" [] allFault).exit = some LoopExit.raised :=
  claim_C3_cleanup "chat" "order" [] scenarioA (by decide)

/-- C4: for every response sequence, a watch sends at most one slow-connection
notice and at most one check-manually notice. -/
theorem claim_C4_notice_budget (chat_id order_id : String) (active_checks : List String)
    (responses : Nat → QueryOutcome) :
    countNotice Notice.slow (auto_check_otp chat_id order_id active_checks responses).notices ≤ 1
    ∧ countNotice Notice.checkManually
        (auto_check_otp chat_id order_id active_checks responses).notices ≤ 1 := by
  simp only [auto_check_otp]
  split_ifs with h
  · simp [countNotice]
  · have hb := runLoop_error_notice_bound responses intervals initState
      (by simp [countNotice, initState]) (fun _ => by simp [countNotice, initState])
      (by simp [countNotice, initState])
    dsimp only
    constructor
    · rw [countNotice_finalNotices Notice.slow (by decide)]
      exact hb.1
    · rw [countNotice_finalNotices Notice.checkManually (by decide)]
      exact hb.2

/-- C5: if every query of a watch returns pending, the watcher sends exactly
one timeout notice, timestamped at the sum 74 of all the intervals (so only
after the last interval has elapsed), zero success notices, issues all 8
queries, and the session registry is empty again afterwards. -/
theorem claim_C5_schedule_exhaustion (chat_id order_id : String)
    (responses : Nat → QueryOutcome) (h : ∀ i, IsPendingResp (responses i)) :
    (auto_check_otp chat_id order_id [] responses).notices = [(74, Notice.timeout)]
    ∧ intervals.sum = 74
    ∧ countSuccess (auto_check_otp chat_id order_id [] responses).notices = 0
    ∧ (auto_check_otp chat_id order_id [] responses).queries = 8
    ∧ (auto_check_otp chat_id order_id [] responses).registry = [] := by
  have hkey : check_key chat_id order_id ∉ ([] : List String) := by simp
  have hrun := runLoop_pending responses intervals initState h
  unfold auto_check_otp
  rw [if_neg hkey, hrun]
  refine ⟨by rfl, by decide, by rfl, by rfl, ?_⟩
  simp

/-- C5, witness: the exhaustion theorem instantiated at the all-pending
response sequence. -/
theorem claim_C5_witness :
    (auto_check_otp "chat" "order" [] allPending).notices = [(74, Notice.timeout)]
    ∧ intervals.sum = 74
    ∧ countSuccess (auto_check_otp "chat" "order" [] allPending).notices = 0
    ∧ (auto_check_otp "chat" "order" [] allPending).queries = 8
    ∧ (auto_check_otp "chat" "order" [] allPending).registry = [] :=
  claim_C5_schedule_exhaustion "chat" "order" allPending (fun _ => ⟨rfl, rfl⟩)

/-- C6: on pending for the first 4 queries and then a code-ready response with
code 1234 and phone +1555, the watcher sends exactly one notice — the success
message carrying both 1234 and +1555 — issues exactly 5 queries, exits the
loop by `break` (so no further query and no further notice after the terminal
notification), and releases the session. -/
theorem claim_C6_scenarioA :
    (auto_check_otp "chat" "order" [] scenarioA).notices
      = [(34, Notice.otpReady "1234" "+1555")]
    ∧ (auto_check_otp "chat" "order" [] scenarioA).queries = 5
    ∧ (auto_check_otp "chat" "order" [] scenarioA).exit = some LoopExit.broke
    ∧ (auto_check_otp "chat" "order" [] scenarioA).registry = [] := by
  decide

/-- C7, counterexample: the schedule sums to 74 seconds, which is not in the
claimed 90-200 second range. -/
theorem claim_C7_counterexample :
    intervals.sum = 74 ∧ ¬ (90 ≤ intervals.sum ∧ intervals.sum ≤ 200) := by
  decide

/-- C7, amended: the wait-interval sequence is monotonically non-decreasing
and its total duration is 74 seconds. -/
theorem claim_C7_amended :
    List.Chain' (fun a b => a ≤ b) intervals ∧ intervals.sum = 74 := by
  constructor
  · simp [intervals, List.chain'_cons]
  · decide

/-- C8, counterexample: the code has no terminal-negative branch. A response
stream reporting a dead order (the status-0 failure dictionary the decorated
`check_order` returns) is treated as transient errors: the watcher keeps
querying (4 queries, not 1), sends the slow and then the check-manually
notices, and never sends a dedicated termination notification. -/
theorem claim_C8_counterexample :
    (auto_check_otp "chat" "order" [] allCancelled).queries = 4
    ∧ (auto_check_otp "chat" "order" [] allCancelled).notices
        = [(10, Notice.slow), (24, Notice.checkManually)]
    ∧ countSuccess (auto_check_otp "chat" "order" [] allCancelled).notices = 0 := by
  decide

/-- C8, amended: the watcher does not classify any response as
terminal-negative: every status-0 response — a dead order included — just
increments `error_count`, and the iteration terminates the watch only when
that counter reaches the ceiling of 4 (the check-manually abort); a dead-order
response stream therefore ends in the error-ceiling abort, not in a dedicated
termination notice. -/
theorem claim_C8_amended (st : LoopState) (r : ApiResult) (hr : r.status = some 0) :
    ((handleResult st r).1.error_count = st.error_count + 1
      ∧ ((handleResult st r).2 = true ↔ 4 ≤ st.error_count + 1))
    ∧ (auto_check_otp "chat" "order" [] allCancelled).exit = some LoopExit.broke := by
  refine ⟨?_, by decide⟩
  simp only [handleResult, hr]
  split_ifs with h4 h2 h2 <;> simp_all

/-- C8, witness: the amended theorem instantiated at the fresh state and the
dead-order response. -/
theorem claim_C8_witness :
    ((handleResult initState respCancelled).1.error_count = initState.error_count + 1
      ∧ ((handleResult initState respCancelled).2 = true ↔ 4 ≤ initState.error_count + 1))
    ∧ (auto_check_otp "chat" "order" [] allCancelled).exit = some LoopExit.broke :=
  claim_C8_amended initState respCancelled rfl

/-- C9: if the session key is already in the registry when the watcher is
called, the call is a no-op: the registry is unchanged, no notice is sent, no
query is issued, and the loop is never entered. -/
theorem claim_C9_admission (chat_id order_id : String) (active_checks : List String)
    (responses : Nat → QueryOutcome)
    (h : check_key chat_id order_id ∈ active_checks) :
    auto_check_otp chat_id order_id active_checks responses
      = { registry := active_checks, notices := [], queries := 0, exit := none } := by
  unfold auto_check_otp
  rw [if_pos h]

/-- C9, witness: the admission theorem instantiated at a registry already
holding the key. -/
theorem claim_C9_witness :
    auto_check_otp "chat" "order" ["chat_order"] allPending
      = { registry := ["chat_order"], notices := [], queries := 0, exit := none } :=
  claim_C9_admission "chat" "order" ["chat_order"] allPending (by decide)

/-- C10: a status-1 response whose data carries no code value is treated as
pending: the iteration sends no notice, resets `error_count` to 0, increments
only the query counter, and does not break — the loop continues to the next
scheduled interval. -/
theorem claim_C10_no_code_is_pending (st : LoopState) (r : ApiResult)
    (h1 : r.status = some 1)
    (h2 : (r.data.getD { code := none, phone := none }).code = none) :
    handleResult st r = ({ st with queries := st.queries + 1, error_count := 0 }, false) :=
  handleResult_pending st r h1 (by rw [h2]; rfl)

/-- C10, witness: the no-code theorem instantiated at the fresh state and the
pending response. -/
theorem claim_C10_witness :
    handleResult initState respPending
      = ({ initState with queries := initState.queries + 1, error_count := 0 }, false) :=
  claim_C10_no_code_is_pending initState respPending rfl rfl
